import Mathlib

/-!
Shallow embedding of the Pokémon scouting application
(`pokemon_app_v4_Final_with_error_handling_commented.py`, with the earlier
`poke_app_v1.py` variants where they differ).

The remote PokeAPI service is modelled as an oracle `Env`: each logical
endpoint is a function from its request key to a `FetchOutcome`, which is
either a raised transport exception (carrying the exception text, i.e. the
Python `str(exc)`) or a response with an HTTP status code and an
already-parsed body.  Python dicts returned by `fetch_pokemon_data` are
modelled as ordered association lists (`PyDict`), so key sets and the
`"error" in p` classification used by `update_results` are represented
faithfully.
-/

/-- Result of one `requests.get` call: either a raised exception (its text)
or a response with a status code and a parsed JSON body. -/
inductive FetchOutcome (α : Type) where
  | exn (msg : String)
  | resp (status : Nat) (body : α)
deriving DecidableEq, Repr

/-- One entry of the paginated listing body: `{"name": ...}`. -/
structure NameEntry where
  name : String
deriving DecidableEq, Repr

/-- Body of `GET /pokemon?limit=2000`: `{"results": [...]}`; the code reads
it with `data.get("results", [])`, so the key may be absent. -/
structure ListingBody where
  results : Option (List NameEntry)
deriving DecidableEq, Repr

/-- The `{"name": ...}` object inside a type entry. -/
structure TypeObj where
  name : String
deriving DecidableEq, Repr

/-- One entry of the base lookup's `types` array: `{"type": {"name": ...}}`. -/
structure TypeEntry where
  type : TypeObj
deriving DecidableEq, Repr

/-- Body of the base lookup `GET /pokemon/{name}`.  Every field the code
reads via `data[...]` is `Option`al, so an absent key (which raises
`KeyError` in Python) is representable. -/
structure BaseBody where
  name : Option String
  id : Option Int
  height : Option Int
  weight : Option Int
  base_experience : Option Int
  types : Option (List TypeEntry)
deriving DecidableEq, Repr

/-- The `{"location_area": {"name": ...}}` object of an encounter entry. -/
structure LocationArea where
  name : String
deriving DecidableEq, Repr

/-- One entry of `GET /pokemon/{id}/encounters`. -/
structure LocEntry where
  location_area : LocationArea
deriving DecidableEq, Repr

/-- The remote service, one oracle per logical endpoint. -/
structure Env where
  listing : FetchOutcome ListingBody
  base : String → FetchOutcome BaseBody
  loc : Int → FetchOutcome (List LocEntry)

/-- A Python value stored in one of the result dicts. -/
inductive PyVal where
  | str (s : String)
  | int (n : Int)
deriving DecidableEq, Repr

/-- A Python dict as an ordered association list (insertion order, as in the
dict literals of the source). -/
abbrev PyDict := List (String × PyVal)

/-- The keys of a dict, in insertion order. -/
def dictKeys (d : PyDict) : List String := d.map Prod.fst

/-- Python `k in d`. -/
def hasKey (d : PyDict) (k : String) : Bool := d.any (fun kv => kv.1 == k)

/-- Lookup of a key, `none` when absent. -/
def dictGet (d : PyDict) (k : String) : Option PyVal :=
  (d.find? (fun kv => kv.1 == k)).map (fun kv => kv.2)

/-- Python `d[k]` at a key the caller knows to be present (the source only
uses it on dicts that carry the key; the default is never reached). -/
def pyGet (d : PyDict) (k : String) : PyVal := (dictGet d k).getD (.str "")

/-- Text of the `KeyError` raised by `data[k]` on a missing key (the model's
rendering of Python's `str(exc)` for that exception). -/
def keyErrorText (k : String) : String := "KeyError: " ++ k

/-- Python's `str.lower()`, modelled character-wise over the string's
character data. -/
def pyLower (s : String) : String := ⟨s.data.map Char.toLower⟩

/-- `load_pokemon_names` of the final app (v4): fetch the listing, extract
the names, and return them sorted alphabetically; any failure yields `[]`. -/
def load_pokemon_names (env : Env) : List String :=
  match env.listing with
  | .exn _ => []
  | .resp status data =>
    if status == 200 then
      (((data.results).getD []).map (fun p => p.name)).mergeSort
        (fun a b => a ≤ b)
    else
      []

/-- `load_pokemon_names` of `poke_app_v1.py`: same, but without the sort —
names are returned in the order received. -/
def load_pokemon_names_v1 (env : Env) : List String :=
  match env.listing with
  | .exn _ => []
  | .resp status data =>
    if status == 200 then
      ((data.results).getD []).map (fun p => p.name)
    else
      []

/-- `fetch_pokemon_location`: comma-joined location-area names, `"Unknown"`
for an empty encounter list, and a degraded error string on a non-200
status or a raised exception.  Never raises. -/
def fetch_pokemon_location (env : Env) (pokemon_id : Int) : String :=
  match env.loc pokemon_id with
  | .exn msg => "Exception occurred fetching location: " ++ msg
  | .resp status locations =>
    if status == 200 then
      if !locations.isEmpty then
        String.intercalate ", " (locations.map (fun l => l.location_area.name))
      else
        "Unknown"
    else
      "Error retrieving location (status code " ++ toString status ++ ")"

/-- Field extraction of the success branch of `fetch_pokemon_data`
(lines 80–90 of the v4 source): each `data[...]` access may raise a
`KeyError`, in the evaluation order of the source (`id` first, then the
location fetch, then the dict literal's `name`, `height`, `weight`,
`base_experience`, `types`).  An error is the caught exception's text. -/
def extractRecord (env : Env) (data : BaseBody) : Except String PyDict :=
  match data.id with
  | none => .error (keyErrorText "id")
  | some pokemon_id =>
    let location := fetch_pokemon_location env pokemon_id
    match data.name with
    | none => .error (keyErrorText "name")
    | some name =>
      match data.height with
      | none => .error (keyErrorText "height")
      | some height =>
        match data.weight with
        | none => .error (keyErrorText "weight")
        | some weight =>
          match data.base_experience with
          | none => .error (keyErrorText "base_experience")
          | some base_experience =>
            match data.types with
            | none => .error (keyErrorText "types")
            | some types =>
              .ok [("name", .str name),
                   ("id", .int pokemon_id),
                   ("height", .int height),
                   ("weight", .int weight),
                   ("base_experience", .int base_experience),
                   ("types", .str (String.intercalate ", "
                      (types.map (fun t => t.type.name)))),
                   ("location", .str location)]

/-- `fetch_pokemon_data` (v4): fetch by the lower-cased identifier; a 200
response yields the seven-field record dict (with the dependent location
lookup inlined), a non-200 status or any exception yields the two-field
error dict.  Total: every outcome is a returned dict. -/
def fetch_pokemon_data (env : Env) (pokemon_name : String) : PyDict :=
  match env.base (pyLower pokemon_name) with
  | .exn msg => [("name", .str pokemon_name), ("error", .str msg)]
  | .resp status data =>
    if status == 200 then
      match extractRecord env data with
      | .ok record => record
      | .error msg => [("name", .str pokemon_name), ("error", .str msg)]
    else
      [("name", .str pokemon_name),
       ("error", .str ("Data not found (status code " ++ toString status ++ ")"))]

/-- Line 229 of the v4 source: `[p for p in (p1, p2, p3, p4, p5) if p]` —
unselected dropdowns (`None`) and empty strings are filtered out. -/
def selectedNames (p1 p2 p3 p4 p5 : Option String) : List String :=
  ([p1, p2, p3, p4, p5].filterMap id).filter (fun s => !s.isEmpty)

/-- Outcome of the `update_results` callback (its `(store, children)` pair,
abstracted from the Dash widgets): nothing yet (`n_clicks` falsy), the
"no selection" guidance message, the consolidated error report built from
the `p["name"]` values of the failing entries, or the success table whose
rows are the fetched record dicts. -/
inductive Outcome where
  | noClick
  | noSelection (msg : String)
  | errorReport (names : List PyVal)
  | successTable (rows : List PyDict)
deriving DecidableEq, Repr

/-- `true` exactly on a `successTable` outcome. -/
def isSuccessTable : Outcome → Bool
  | .successTable _ => true
  | _ => false

/-- `update_results` (v4, lines 220–264): gather the selected names, guard
the empty selection, fetch every record sequentially in order, and return
an error report naming the failing entries if any dict carries `"error"`,
otherwise the table of all rows. -/
def update_results (env : Env) (n_clicks : Nat)
    (p1 p2 p3 p4 p5 : Option String) : Outcome :=
  if n_clicks == 0 then
    .noClick
  else
    let pokemon_names := selectedNames p1 p2 p3 p4 p5
    if pokemon_names.isEmpty then
      .noSelection "Please select at least one Pokémon."
    else
      let pokemon_data := pokemon_names.map (fetch_pokemon_data env)
      let error_messages :=
        (pokemon_data.filter (fun p => hasKey p "error")).map
          (fun p => pyGet p "name")
      if !error_messages.isEmpty then
        .errorReport error_messages
      else
        .successTable pokemon_data

/-! ### Concrete environments used by witnesses and counterexamples -/

/-- A fully-populated base-lookup body (Pikachu's attributes). -/
def pikachuBody : BaseBody :=
  { name := some "pikachu", id := some 25, height := some 4, weight := some 60,
    base_experience := some 112, types := some [{ type := { name := "electric" } }] }

/-- A service where every call succeeds; the listing arrives out of
alphabetical order and the encounter list is empty. -/
def envOk : Env :=
  { listing := .resp 200 { results := some [{ name := "beedrill" }, { name := "abra" }] },
    base := fun _ => .resp 200 pikachuBody,
    loc := fun _ => .resp 200 [] }

/-- A service answering 404 to every base lookup (and to the listing). -/
def envNotFound : Env :=
  { listing := .resp 404 { results := none },
    base := fun _ => .resp 404 pikachuBody,
    loc := fun _ => .resp 200 [] }

/-- A service whose every call raises a transport exception. -/
def envExn : Env :=
  { listing := .exn "ConnectionError",
    base := fun _ => .exn "ConnectionError",
    loc := fun _ => .exn "ConnectionError" }

/-- Base lookups succeed but every location lookup answers status 500. -/
def envLocDown : Env :=
  { listing := .resp 200 { results := none },
    base := fun _ => .resp 200 pikachuBody,
    loc := fun _ => .resp 500 [] }

/-- Base lookups succeed but every location lookup raises. -/
def envLocExn : Env :=
  { listing := .resp 200 { results := none },
    base := fun _ => .resp 200 pikachuBody,
    loc := fun _ => .exn "ReadTimeout" }

/-- A service that resolves the base lookup for `"pikachu"` and answers 404
for every other identifier. -/
def envHalf : Env :=
  { listing := .resp 200 { results := none },
    base := fun s => if s == "pikachu" then .resp 200 pikachuBody
                     else .resp 404 pikachuBody,
    loc := fun _ => .resp 200 [] }

/-- Base lookups succeed and the encounter list has two entries. -/
def envLoc2 : Env :=
  { listing := .resp 200 { results := none },
    base := fun _ => .resp 200 pikachuBody,
    loc := fun _ => .resp 200 [{ location_area := { name := "viridian-forest" } },
                               { location_area := { name := "power-plant" } }] }

/-- A 200 base lookup whose body is missing the `id` field. -/
def envMissingId : Env :=
  { listing := .resp 200 { results := none },
    base := fun _ => .resp 200 { pikachuBody with id := none },
    loc := fun _ => .resp 200 [] }

/-! ### Shape lemmas about the resolver's result dicts -/

/-- On a body with every expected field present, extraction succeeds with
the seven-field record of the source's dict literal. -/
lemma extractRecord_all_some (env : Env) (nm : String) (pid ht wt be : Int)
    (ts : List TypeEntry) :
    extractRecord env
      { name := some nm, id := some pid, height := some ht, weight := some wt,
        base_experience := some be, types := some ts } =
      .ok [("name", .str nm),
           ("id", .int pid),
           ("height", .int ht),
           ("weight", .int wt),
           ("base_experience", .int be),
           ("types", .str (String.intercalate ", " (ts.map (fun t => t.type.name)))),
           ("location", .str (fetch_pokemon_location env pid))] := rfl

/-- A successful extraction always produces the seven-field record shape,
with the location string coming from the dependent lookup. -/
lemma extractRecord_ok_form (env : Env) (data : BaseBody) (d : PyDict)
    (h : extractRecord env data = .ok d) :
    ∃ nm pid ht wt be ts,
      data.id = some pid ∧
      d = [("name", PyVal.str nm),
           ("id", PyVal.int pid),
           ("height", PyVal.int ht),
           ("weight", PyVal.int wt),
           ("base_experience", PyVal.int be),
           ("types", PyVal.str ts),
           ("location", PyVal.str (fetch_pokemon_location env pid))] := by
  obtain ⟨nm, pid, ht, wt, be, ts⟩ := data
  cases pid <;> cases nm <;> cases ht <;> cases wt <;> cases be <;> cases ts <;>
    simp only [extractRecord] at h
  all_goals first
    | exact Except.noConfusion h
    | (injection h with h; exact ⟨_, _, _, _, _, _, rfl, h.symm⟩)

/-- If any of the five expected attribute fields is absent from a 200 body,
extraction fails with some `KeyError` text. -/
lemma extractRecord_error_of_missing (env : Env) (data : BaseBody)
    (h : data.id = none ∨ data.height = none ∨ data.weight = none ∨
         data.base_experience = none ∨ data.types = none) :
    ∃ m, extractRecord env data = .error m := by
  obtain ⟨nm, pid, ht, wt, be, ts⟩ := data
  cases pid <;> cases nm <;> cases ht <;> cases wt <;> cases be <;> cases ts <;>
    simp_all [extractRecord]

/-- Every result of `fetch_pokemon_data` is either the two-field error dict
carrying the input identifier, or the seven-field record dict. -/
lemma fetch_pokemon_data_shape (env : Env) (name : String) :
    (∃ r, fetch_pokemon_data env name =
        [("name", PyVal.str name), ("error", PyVal.str r)]) ∨
    (∃ nm pid ht wt be ts,
        fetch_pokemon_data env name =
          [("name", PyVal.str nm),
           ("id", PyVal.int pid),
           ("height", PyVal.int ht),
           ("weight", PyVal.int wt),
           ("base_experience", PyVal.int be),
           ("types", PyVal.str ts),
           ("location", PyVal.str (fetch_pokemon_location env pid))]) := by
  unfold fetch_pokemon_data
  cases hb : env.base (pyLower name) with
  | exn msg => exact .inl ⟨msg, rfl⟩
  | resp status data =>
    by_cases hs : (status == 200) = true
    · simp only [hs, if_true]
      cases he : extractRecord env data with
      | error m => exact .inl ⟨m, rfl⟩
      | ok d =>
        obtain ⟨nm, pid, ht, wt, be, ts, _, hd⟩ := extractRecord_ok_form env data d he
        exact .inr ⟨nm, pid, ht, wt, be, ts, hd⟩
    · simp only [Bool.not_eq_true] at hs
      simp only [hs, Bool.false_eq_true, if_false]
      exact .inl ⟨_, rfl⟩

/-- A result dict that carries the `"error"` key is the two-field error
dict, whose `"name"` value is the input identifier. -/
lemma fetch_pokemon_data_error_name (env : Env) (name : String)
    (h : hasKey (fetch_pokemon_data env name) "error" = true) :
    pyGet (fetch_pokemon_data env name) "name" = .str name := by
  rcases fetch_pokemon_data_shape env name with ⟨r, hr⟩ | ⟨nm, pid, ht, wt, be, ts, hr⟩
  · rw [hr]; rfl
  · rw [hr] at h; simp [hasKey] at h

/-! ### Claims about the record resolver and location lookup -/

/-- Claim C3: the record resolver is total (its codomain is a returned dict,
never a raised exception), it fetches by the lower-cased identifier, and a
non-success status yields the error dict with reason
`"Data not found (status code {code})"` while a transport exception yields
the error dict whose reason is the exception text. -/
theorem claim_C3 (env : Env) (name : String) :
    (∀ status body, env.base (pyLower name) = .resp status body → status ≠ 200 →
      fetch_pokemon_data env name =
        [("name", .str name),
         ("error", .str ("Data not found (status code " ++ toString status ++ ")"))]) ∧
    (∀ msg, env.base (pyLower name) = .exn msg →
      fetch_pokemon_data env name = [("name", .str name), ("error", .str msg)]) := by
  constructor
  · intro status body hb hs
    have hs2 : (status == 200) = false := by simpa using hs
    simp [fetch_pokemon_data, hb, hs2]
  · intro msg hb
    simp [fetch_pokemon_data, hb]

/-- Witness for C3 at a 404 service and at a raising service. -/
theorem claim_C3_witness :
    fetch_pokemon_data envNotFound "Pikachu" =
      [("name", .str "Pikachu"),
       ("error", .str ("Data not found (status code " ++ toString 404 ++ ")"))] ∧
    fetch_pokemon_data envExn "Pikachu" =
      [("name", .str "Pikachu"), ("error", .str "ConnectionError")] :=
  ⟨(claim_C3 envNotFound "Pikachu").1 404 pikachuBody rfl (by decide),
   (claim_C3 envExn "Pikachu").2 "ConnectionError" rfl⟩

/-- Claim C6: a successful (status 200) location lookup yields `"Unknown"`
on an empty encounter list, and the comma-join of the location-area names
in response order otherwise. -/
theorem claim_C6 (env : Env) (pid : Int) (locations : List LocEntry)
    (h : env.loc pid = .resp 200 locations) :
    (locations = [] → fetch_pokemon_location env pid = "Unknown") ∧
    (locations ≠ [] → fetch_pokemon_location env pid =
       String.intercalate ", " (locations.map (fun l => l.location_area.name))) := by
  constructor
  · intro he; subst he; simp [fetch_pokemon_location, h]
  · intro hne
    have he : locations.isEmpty = false := by
      simpa [List.isEmpty_iff] using hne
    simp [fetch_pokemon_location, h, he]

/-- Witness for C6 at an empty and at a two-entry encounter list. -/
theorem claim_C6_witness :
    fetch_pokemon_location envOk 25 = "Unknown" ∧
    fetch_pokemon_location envLoc2 25 = "viridian-forest, power-plant" := by
  refine ⟨(claim_C6 envOk 25 [] rfl).1 rfl, ?_⟩
  have h := (claim_C6 envLoc2 25
    [{ location_area := { name := "viridian-forest" } },
     { location_area := { name := "power-plant" } }] rfl).2 (by simp)
  simpa using h

/-- Claim C9: a 200 base-lookup body missing one of the expected attribute
fields (`id`, `height`, `weight`, `base_experience`, `types`) makes the
resolver return the two-field error dict for that identifier (reason = the
caught exception's text), never a partial record and never a raised
exception. -/
theorem claim_C9 (env : Env) (name : String) (body : BaseBody)
    (hb : env.base (pyLower name) = .resp 200 body)
    (hmiss : body.id = none ∨ body.height = none ∨ body.weight = none ∨
             body.base_experience = none ∨ body.types = none) :
    ∃ reason, fetch_pokemon_data env name =
      [("name", .str name), ("error", .str reason)] := by
  obtain ⟨m, hm⟩ := extractRecord_error_of_missing env body hmiss
  exact ⟨m, by simp [fetch_pokemon_data, hb, hm]⟩

/-- Witness for C9 at a 200 body whose `id` field is absent. -/
theorem claim_C9_witness :
    ∃ reason, fetch_pokemon_data envMissingId "pikachu" =
      [("name", .str "pikachu"), ("error", .str reason)] :=
  claim_C9 envMissingId "pikachu" { pikachuBody with id := none } rfl (.inl rfl)

/-- Claim C2: when the base lookup succeeds (200 body with every expected
field), a failing dependent location lookup never turns the record into an
error dict (so it can never reach an error report): the record stays
resolved, its `location` field carries the lookup's string, and that string
is the degraded error text on a non-200 status or a raised exception; a
singleton batch of such an identifier still yields the success table. -/
theorem claim_C2 (env : Env) (name : String) (body : BaseBody)
    (nm : String) (pid ht wt be : Int) (ts : List TypeEntry)
    (hb : env.base (pyLower name) = .resp 200 body)
    (h1 : body.name = some nm) (h2 : body.id = some pid)
    (h3 : body.height = some ht) (h4 : body.weight = some wt)
    (h5 : body.base_experience = some be) (h6 : body.types = some ts) :
    hasKey (fetch_pokemon_data env name) "error" = false ∧
    dictGet (fetch_pokemon_data env name) "location" =
      some (.str (fetch_pokemon_location env pid)) ∧
    (∀ status lb, env.loc pid = .resp status lb → status ≠ 200 →
      fetch_pokemon_location env pid =
        "Error retrieving location (status code " ++ toString status ++ ")") ∧
    (∀ msg, env.loc pid = .exn msg →
      fetch_pokemon_location env pid = "Exception occurred fetching location: " ++ msg) ∧
    (name.isEmpty = false →
      update_results env 1 (some name) none none none none =
        .successTable [fetch_pokemon_data env name]) := by
  obtain ⟨bn, bi, bh, bw, bb, bt⟩ := body
  simp only at h1 h2 h3 h4 h5 h6
  subst h1; subst h2; subst h3; subst h4; subst h5; subst h6
  have hfetch : fetch_pokemon_data env name =
      [("name", .str nm), ("id", .int pid), ("height", .int ht),
       ("weight", .int wt), ("base_experience", .int be),
       ("types", .str (String.intercalate ", " (ts.map (fun t => t.type.name)))),
       ("location", .str (fetch_pokemon_location env pid))] := by
    simp [fetch_pokemon_data, hb, extractRecord_all_some]
  have hkey : hasKey (fetch_pokemon_data env name) "error" = false := by
    rw [hfetch]; rfl
  refine ⟨hkey, by rw [hfetch]; rfl, ?_, ?_, ?_⟩
  · intro status lb hl hs
    have hs2 : (status == 200) = false := by simpa using hs
    simp [fetch_pokemon_location, hl, hs2]
  · intro msg hl
    simp [fetch_pokemon_location, hl]
  · intro hne
    have hsel : selectedNames (some name) none none none none = [name] := by
      simp [selectedNames, hne]
    simp [update_results, hsel, hkey]

/-- Witness for C2 at a 500-answering and at a raising location service. -/
theorem claim_C2_witness :
    hasKey (fetch_pokemon_data envLocDown "pikachu") "error" = false ∧
    dictGet (fetch_pokemon_data envLocDown "pikachu") "location" =
      some (.str (fetch_pokemon_location envLocDown 25)) ∧
    fetch_pokemon_location envLocDown 25 =
      "Error retrieving location (status code " ++ toString 500 ++ ")" ∧
    fetch_pokemon_location envLocExn 25 =
      "Exception occurred fetching location: " ++ "ReadTimeout" ∧
    update_results envLocDown 1 (some "pikachu") none none none none =
      .successTable [fetch_pokemon_data envLocDown "pikachu"] := by
  have h := claim_C2 envLocDown "pikachu" pikachuBody "pikachu" 25 4 60 112
    [{ type := { name := "electric" } }] rfl rfl rfl rfl rfl rfl rfl
  have h2 := claim_C2 envLocExn "pikachu" pikachuBody "pikachu" 25 4 60 112
    [{ type := { name := "electric" } }] rfl rfl rfl rfl rfl rfl rfl
  exact ⟨h.1, h.2.1, h.2.2.1 500 [] rfl (by decide),
         h2.2.2.2.1 "ReadTimeout" rfl, h.2.2.2.2 rfl⟩

/-- Claim C10: every resolver result is a dict carrying `"name"`, and the
two shapes are disjoint — with `"error"` present the keys are exactly
`["name", "error"]`, without it they are exactly the seven record keys —
so classifying a batch by presence of `"error"` is total and unambiguous. -/
theorem claim_C10 (env : Env) (name : String) :
    hasKey (fetch_pokemon_data env name) "name" = true ∧
    (hasKey (fetch_pokemon_data env name) "error" = true →
      dictKeys (fetch_pokemon_data env name) = ["name", "error"]) ∧
    (hasKey (fetch_pokemon_data env name) "error" = false →
      dictKeys (fetch_pokemon_data env name) =
        ["name", "id", "height", "weight", "base_experience", "types", "location"]) := by
  rcases fetch_pokemon_data_shape env name with ⟨r, hr⟩ | ⟨nm, pid, ht, wt, be, ts, hr⟩ <;>
    rw [hr] <;> refine ⟨rfl, ?_, ?_⟩ <;> intro h <;>
    first | rfl | simp [hasKey] at h

/-- Witness for C10 at a resolving and at a failing lookup. -/
theorem claim_C10_witness :
    hasKey (fetch_pokemon_data envOk "pikachu") "name" = true ∧
    dictKeys (fetch_pokemon_data envNotFound "pikachu") = ["name", "error"] ∧
    dictKeys (fetch_pokemon_data envOk "pikachu") =
      ["name", "id", "height", "weight", "base_experience", "types", "location"] :=
  ⟨(claim_C10 envOk "pikachu").1,
   (claim_C10 envNotFound "pikachu").2.1 rfl,
   (claim_C10 envOk "pikachu").2.2 rfl⟩

/-! ### Claims about the batch aggregation callback -/

/-- Claim C5: once the button has been clicked, a selection that filters
down to zero non-empty identifiers yields the "no selection" guidance
outcome (distinct by construction from an error report and a success
table), and the outcome does not depend on the remote service — no
resolution call is made. -/
theorem claim_C5 (env : Env) (n : Nat) (p1 p2 p3 p4 p5 : Option String)
    (hn : n ≠ 0) (hempty : selectedNames p1 p2 p3 p4 p5 = []) :
    update_results env n p1 p2 p3 p4 p5 =
      .noSelection "Please select at least one Pokémon." ∧
    (∀ env2 : Env, update_results env2 n p1 p2 p3 p4 p5 =
      update_results env n p1 p2 p3 p4 p5) := by
  have hn2 : (n == 0) = false := by simpa using hn
  constructor
  · simp [update_results, hn2, hempty]
  · intro env2
    simp [update_results, hn2, hempty]

/-- Witness for C5: one blank and four unselected slots. -/
theorem claim_C5_witness :
    update_results envOk 3 none (some "") none none none =
      .noSelection "Please select at least one Pokémon." ∧
    update_results envExn 3 none (some "") none none none =
      update_results envOk 3 none (some "") none none none := by
  have h := claim_C5 envOk 3 none (some "") none none none (by decide) (by decide)
  exact ⟨h.1, h.2 envExn⟩

/-- Claim C7: at most the five dropdown slots are ever considered, so the
considered identifier list has length at most 5; blank and unselected
entries are filtered out before resolution; and after the click guard the
outcome depends only on that filtered list. -/
theorem claim_C7 (p1 p2 p3 p4 p5 : Option String) :
    (selectedNames p1 p2 p3 p4 p5).length ≤ 5 ∧
    (∀ s ∈ selectedNames p1 p2 p3 p4 p5, s ≠ "") ∧
    (∀ (env : Env) (n m : Nat) (q1 q2 q3 q4 q5 : Option String), n ≠ 0 → m ≠ 0 →
      selectedNames p1 p2 p3 p4 p5 = selectedNames q1 q2 q3 q4 q5 →
      update_results env n p1 p2 p3 p4 p5 = update_results env m q1 q2 q3 q4 q5) := by
  refine ⟨?_, ?_, ?_⟩
  · calc (selectedNames p1 p2 p3 p4 p5).length
        ≤ ([p1, p2, p3, p4, p5].filterMap id).length :=
          List.length_filter_le _ _
      _ ≤ [p1, p2, p3, p4, p5].length := List.length_filterMap_le id _
      _ = 5 := rfl
  · intro s hs
    have h := (List.mem_filter.mp hs).2
    intro hcon
    subst hcon
    simp only [Bool.not_eq_true'] at h
    exact absurd h (by decide)
  · intro env n m q1 q2 q3 q4 q5 hn hm heq
    have hn2 : (n == 0) = false := by simpa using hn
    have hm2 : (m == 0) = false := by simpa using hm
    simp only [update_results, hn2, hm2, Bool.false_eq_true, if_false, heq]

/-- Witness for C7: a concrete selection, and invariance between two
selections with the same filtered list. -/
theorem claim_C7_witness :
    (selectedNames (some "pikachu") none (some "") none (some "eevee")).length ≤ 5 ∧
    update_results envOk 1 (some "pikachu") none none none none =
      update_results envOk 2 none (some "pikachu") none none none :=
  ⟨(claim_C7 (some "pikachu") none (some "") none (some "eevee")).1,
   (claim_C7 (some "pikachu") none none none none).2.2 envOk 1 2
     none (some "pikachu") none none none (by decide) (by decide) (by decide)⟩

/-- Claim C1: if any selected identifier's resolution carries the `"error"`
key, the outcome is the error report listing exactly the failing
identifiers in their original relative order — never the success table,
and the successfully resolved dicts of the batch are absent from it. -/
theorem claim_C1 (env : Env) (n : Nat) (p1 p2 p3 p4 p5 : Option String)
    (hn : n ≠ 0)
    (hfail : ∃ nm ∈ selectedNames p1 p2 p3 p4 p5,
      hasKey (fetch_pokemon_data env nm) "error" = true) :
    update_results env n p1 p2 p3 p4 p5 =
      .errorReport (((selectedNames p1 p2 p3 p4 p5).filter
        (fun nm => hasKey (fetch_pokemon_data env nm) "error")).map PyVal.str) := by
  obtain ⟨nm, hmem, hkey⟩ := hfail
  have hn2 : (n == 0) = false := by simpa using hn
  have hnonempty : (selectedNames p1 p2 p3 p4 p5).isEmpty = false := by
    simpa [List.isEmpty_iff] using List.ne_nil_of_mem hmem
  have hfilter : ((selectedNames p1 p2 p3 p4 p5).map (fetch_pokemon_data env)).filter
        (fun p => hasKey p "error") =
      ((selectedNames p1 p2 p3 p4 p5).filter
        (fun nm => hasKey (fetch_pokemon_data env nm) "error")).map
          (fetch_pokemon_data env) :=
    List.filter_map (fetch_pokemon_data env) (selectedNames p1 p2 p3 p4 p5)
  have hmapstr : (((selectedNames p1 p2 p3 p4 p5).filter
        (fun nm => hasKey (fetch_pokemon_data env nm) "error")).map
          (fetch_pokemon_data env)).map (fun p => pyGet p "name") =
      ((selectedNames p1 p2 p3 p4 p5).filter
        (fun nm => hasKey (fetch_pokemon_data env nm) "error")).map PyVal.str := by
    rw [List.map_map]
    refine List.map_congr_left ?_
    intro a ha
    exact fetch_pokemon_data_error_name env a (List.mem_filter.mp ha).2
  have hmemf : nm ∈ (selectedNames p1 p2 p3 p4 p5).filter
      (fun nm => hasKey (fetch_pokemon_data env nm) "error") :=
    List.mem_filter.mpr ⟨hmem, hkey⟩
  have herrne : (((selectedNames p1 p2 p3 p4 p5).filter
        (fun nm => hasKey (fetch_pokemon_data env nm) "error")).map
          PyVal.str).isEmpty = false := by
    have hne := List.ne_nil_of_mem hmemf
    simpa [List.isEmpty_iff, List.map_eq_nil_iff] using hne
  simp only [update_results, hn2, Bool.false_eq_true, if_false, hnonempty,
    hfilter, hmapstr, herrne, Bool.not_false, if_true]

/-- Witness for C1: a clean and a failing identifier in one batch; only the
failing one is reported. -/
theorem claim_C1_witness :
    update_results envHalf 1 (some "pikachu") (some "missingno") none none none =
      .errorReport (((selectedNames (some "pikachu") (some "missingno")
          none none none).filter
        (fun nm => hasKey (fetch_pokemon_data envHalf nm) "error")).map PyVal.str) :=
  claim_C1 envHalf 1 (some "pikachu") (some "missingno") none none none
    (by decide) ⟨"missingno", by decide, by decide⟩

/-- Counterexample to C4 as stated: with zero identifiers selected, every
identifier of the (empty) list vacuously resolves successfully, yet the
outcome is the "no selection" message, not a success table. -/
theorem claim_C4_cex :
    selectedNames none none none none none = [] ∧
    update_results envOk 1 none none none none none =
      .noSelection "Please select at least one Pokémon." ∧
    isSuccessTable (update_results envOk 1 none none none none none) = false :=
  ⟨rfl, rfl, rfl⟩

/-- Claim C4 as amended: for a selection with at least one non-blank
identifier in which every identifier resolves successfully, the outcome is
the success table whose rows are the fetched records in input order (one
row per occurrence, duplicates included), with row count equal to the
identifier count. -/
theorem claim_C4_amended (env : Env) (n : Nat) (p1 p2 p3 p4 p5 : Option String)
    (hn : n ≠ 0) (hne : selectedNames p1 p2 p3 p4 p5 ≠ [])
    (hok : ∀ nm ∈ selectedNames p1 p2 p3 p4 p5,
      hasKey (fetch_pokemon_data env nm) "error" = false) :
    update_results env n p1 p2 p3 p4 p5 =
      .successTable ((selectedNames p1 p2 p3 p4 p5).map (fetch_pokemon_data env)) ∧
    ((selectedNames p1 p2 p3 p4 p5).map (fetch_pokemon_data env)).length =
      (selectedNames p1 p2 p3 p4 p5).length := by
  have hn2 : (n == 0) = false := by simpa using hn
  have hnonempty : (selectedNames p1 p2 p3 p4 p5).isEmpty = false := by
    simpa [List.isEmpty_iff] using hne
  have hfilter : ((selectedNames p1 p2 p3 p4 p5).map (fetch_pokemon_data env)).filter
      (fun p => hasKey p "error") = [] := by
    rw [List.filter_map (fetch_pokemon_data env) (selectedNames p1 p2 p3 p4 p5)]
    have : (selectedNames p1 p2 p3 p4 p5).filter
        ((fun p => hasKey p "error") ∘ fetch_pokemon_data env) = [] := by
      refine List.filter_eq_nil_iff.mpr ?_
      intro a ha
      simp [Function.comp, hok a ha]
    rw [this, List.map_nil]
  refine ⟨?_, List.length_map _ _⟩
  simp only [update_results, hn2, Bool.false_eq_true, if_false, hnonempty,
    hfilter, List.map_nil, List.isEmpty_nil, Bool.not_true, if_false]

/-- Witness for the amended C4: two identifiers, one of them a duplicate,
all resolving; the table has one row per occurrence in input order. -/
theorem claim_C4_witness :
    update_results envOk 1 (some "pikachu") (some "pikachu") none none none =
      .successTable ((selectedNames (some "pikachu") (some "pikachu")
        none none none).map (fetch_pokemon_data envOk)) ∧
    ((selectedNames (some "pikachu") (some "pikachu") none none none).map
      (fetch_pokemon_data envOk)).length =
      (selectedNames (some "pikachu") (some "pikachu") none none none).length :=
  claim_C4_amended envOk 1 (some "pikachu") (some "pikachu") none none none
    (by decide) (by decide) (by decide)

/-! ### Claims about the catalog lister -/

/-- Counterexample to C8 as stated: the final app's `load_pokemon_names`
does not return the names in the order received — for a listing that
arrives as `["beedrill", "abra"]` (the order `load_pokemon_names_v1`
preserves) it returns the alphabetically sorted `["abra", "beedrill"]`. -/
theorem claim_C8_cex :
    load_pokemon_names_v1 envOk = ["beedrill", "abra"] ∧
    load_pokemon_names envOk = ["abra", "beedrill"] ∧
    load_pokemon_names envOk ≠ ["beedrill", "abra"] := by
  have h1 : load_pokemon_names envOk = ["abra", "beedrill"] := by
    simp only [load_pokemon_names, envOk]
    simp [List.mergeSort, List.merge]
    decide
  refine ⟨rfl, h1, ?_⟩
  rw [h1]
  decide

/-- Claim C8 as amended: a non-success status or a transport failure makes
the lister return the empty sequence without raising, in both versions; on
success the v1 lister returns the `name` field of every listing entry in
the order received, while the final lister returns a permutation of those
names sorted alphabetically. -/
theorem claim_C8_amended (env : Env) :
    (∀ msg, env.listing = .exn msg →
      load_pokemon_names env = [] ∧ load_pokemon_names_v1 env = []) ∧
    (∀ status body, env.listing = .resp status body → status ≠ 200 →
      load_pokemon_names env = [] ∧ load_pokemon_names_v1 env = []) ∧
    (∀ body, env.listing = .resp 200 body →
      load_pokemon_names_v1 env = (body.results.getD []).map NameEntry.name ∧
      (load_pokemon_names env).Perm ((body.results.getD []).map NameEntry.name) ∧
      (load_pokemon_names env).Pairwise (fun a b => a ≤ b)) := by
  refine ⟨?_, ?_, ?_⟩
  · intro msg h
    constructor <;> simp [load_pokemon_names, load_pokemon_names_v1, h]
  · intro status body h hs
    have hs2 : (status == 200) = false := by simpa using hs
    constructor <;> simp [load_pokemon_names, load_pokemon_names_v1, h, hs2]
  · intro body h
    have hload : load_pokemon_names env =
        ((body.results.getD []).map (fun p => p.name)).mergeSort
          (fun a b => a ≤ b) := by
      simp [load_pokemon_names, h]
    refine ⟨by simp [load_pokemon_names_v1, h], ?_, ?_⟩
    · rw [hload]
      exact List.mergeSort_perm _ _
    · rw [hload]
      have htrans : ∀ (a b c : String),
          decide (a ≤ b) = true → decide (b ≤ c) = true →
          decide (a ≤ c) = true := by
        intro a b c hab hbc
        simp only [decide_eq_true_eq] at hab hbc ⊢
        exact le_trans hab hbc
      have htotal : ∀ (a b : String),
          (decide (a ≤ b) || decide (b ≤ a)) = true := by
        intro a b
        rcases le_total a b with hle | hle <;> simp [hle]
      have hp := List.sorted_mergeSort htrans htotal
        ((body.results.getD []).map (fun p => p.name))
      exact hp.imp (fun hab => of_decide_eq_true hab)

/-- Witness for the amended C8 at each of the three branches. -/
theorem claim_C8_witness :
    (load_pokemon_names envExn = [] ∧ load_pokemon_names_v1 envExn = []) ∧
    (load_pokemon_names envNotFound = [] ∧ load_pokemon_names_v1 envNotFound = []) ∧
    (load_pokemon_names envOk).Pairwise (fun a b => a ≤ b) :=
  ⟨(claim_C8_amended envExn).1 "ConnectionError" rfl,
   (claim_C8_amended envNotFound).2.1 404 { results := none } rfl (by decide),
   ((claim_C8_amended envOk).2.2
     { results := some [{ name := "beedrill" }, { name := "abra" }] } rfl).2.2⟩
